import Mathlib

set_option autoImplicit false

/-!
# ZabMetrics `waf_sender.go` — verification development

A shallow embedding of the collection pipeline of `waf_sender.go`:
the timestamp formats of the persisted poll state, the device-id
resolver, the query-window computation, the per-site collection loop,
and the line-protocol encoder.  Go strings are modelled as Lean
`String`/`List Char`; machine times are modelled as integer seconds;
JSON documents are modelled structurally.  Every external effect (HTTP
responses, the state file, the sink) is an explicit parameter, so all
definitions are executable.
-/

/-! ## Digits and fixed-width decimal fields

Go's `time.Format`/`time.Parse` render and read zero-padded decimal
fields.  We model a digit character and two/four-digit fields directly.
-/

/-- The decimal digit character for `n` (only `n < 10` is ever used). -/
def digitChar : Nat → Char
  | 0 => '0' | 1 => '1' | 2 => '2' | 3 => '3' | 4 => '4'
  | 5 => '5' | 6 => '6' | 7 => '7' | 8 => '8' | _ => '9'

/-- The value of a decimal digit character, `none` on a non-digit. -/
def digitVal (c : Char) : Option Nat :=
  if 48 ≤ c.toNat ∧ c.toNat ≤ 57 then some (c.toNat - 48) else none

/-- Zero-padded two-digit decimal field (layout `01`, `02`, …). -/
def write2 (n : Nat) : List Char := [digitChar (n / 10), digitChar (n % 10)]

/-- Zero-padded four-digit decimal field (layout `2006`). -/
def write4 (n : Nat) : List Char :=
  [digitChar (n / 1000), digitChar (n / 100 % 10), digitChar (n / 10 % 10), digitChar (n % 10)]

/-- Read exactly two decimal digits. -/
def parse2 : List Char → Option (Nat × List Char)
  | a :: b :: r =>
    match digitVal a, digitVal b with
    | some x, some y => some (10 * x + y, r)
    | _, _ => none
  | _ => none

/-- Read exactly four decimal digits. -/
def parse4 : List Char → Option (Nat × List Char)
  | a :: b :: c :: d :: r =>
    match digitVal a, digitVal b, digitVal c, digitVal d with
    | some x, some y, some z, some w => some (1000 * x + 100 * y + 10 * z + w, r)
    | _, _, _, _ => none
  | _ => none

/-- Require a specific literal character. -/
def expect (c : Char) : List Char → Option (List Char)
  | x :: r => if x = c then some r else none
  | [] => none

/-! ## Fractional seconds

Go's `time.Parse` accepts an optional fractional-second field
immediately after the seconds field for *every* layout used here, and
the `.999999` layout prints microseconds with trailing zeros (and a
bare trailing dot) removed.
-/

/-- Digit value of a list of decimal digits, most significant first. -/
def valD (ds : List Nat) : Nat := ds.foldl (fun a d => 10 * a + d) 0

/-- Consume a maximal run of decimal digits. -/
def takeDigits : List Char → List Nat × List Char
  | c :: rest =>
    match digitVal c with
    | some d =>
      let p := takeDigits rest
      (d :: p.1, p.2)
    | none => ([], c :: rest)
  | [] => ([], [])

/-- Parse an optional fractional-second field: a dot followed by one to
nine digits scaled to nanoseconds; absence parses as zero nanoseconds. -/
def parseFrac (cs : List Char) : Option (Nat × List Char) :=
  match cs with
  | c :: rest =>
    if c = '.' then
      let p := takeDigits rest
      if 1 ≤ p.1.length ∧ p.1.length ≤ 9 then
        some (valD p.1 * 10 ^ (9 - p.1.length), p.2)
      else none
    else some (0, cs)
  | [] => some (0, [])

/-- The six zero-padded decimal digits of a microsecond count. -/
def pad6 (m : Nat) : List Nat :=
  [m / 100000 % 10, m / 10000 % 10, m / 1000 % 10, m / 100 % 10, m / 10 % 10, m % 10]

/-- Remove trailing zero digits (Go's `.999999` rendering rule). -/
def stripZeros (ds : List Nat) : List Nat :=
  ((ds.reverse.dropWhile (fun d => d == 0))).reverse

/-- Render nanoseconds under the `.999999` layout: microseconds with
trailing zeros removed, nothing at all when the microseconds are zero. -/
def writeFrac (nanos : Nat) : List Char :=
  let micros := nanos / 1000
  if micros = 0 then []
  else '.' :: (stripZeros (pad6 micros)).map digitChar

/-! ## Date-times and the four accepted timestamp layouts

`getLastRunTime` tries four Go layouts in strict order:
`time.RFC3339` (`2006-01-02T15:04:05Z07:00`), then
`2006-01-02T15:04:05.999999`, then `2006-01-02T15:04:05`, then
`2006-01-02 15:04:05`.  `saveLastRunTime` writes `time.RFC3339`.
A layout without a zone parses to offset 0 (UTC), and `time.Parse`
validates the calendar field ranges.
-/

/-- A parsed wall-clock time: calendar fields, nanoseconds, and the
zone offset in minutes (Go prints RFC3339 offsets as `±hh:mm`, or `Z`
when the offset is zero). -/
structure DateTime where
  year : Nat
  month : Nat
  day : Nat
  hour : Nat
  minute : Nat
  second : Nat
  nanos : Nat
  offMin : Int
deriving DecidableEq, Repr

/-- Leap-year test (as in Go's `isLeap`). -/
def isLeap (y : Nat) : Bool :=
  y % 4 == 0 && (y % 100 != 0 || y % 400 == 0)

/-- Days in a month, as validated by Go's `time.Parse`. -/
def daysInMonth (y m : Nat) : Nat :=
  if m = 2 then (if isLeap y then 29 else 28)
  else if m = 4 ∨ m = 6 ∨ m = 9 ∨ m = 11 then 30
  else 31

/-- The field-range validation `time.Parse` performs. -/
def validParts (y mo d h mi s : Nat) : Bool :=
  1 ≤ mo && mo ≤ 12 && 1 ≤ d && d ≤ daysInMonth y mo && h ≤ 23 && mi ≤ 59 && s ≤ 59

/-- Parse `2006-01-02<sep>15:04:05` returning the six calendar fields. -/
def parseYMDHMS (sep : Char) (cs : List Char) :
    Option ((Nat × Nat × Nat × Nat × Nat × Nat) × List Char) :=
  match parse4 cs with
  | none => none
  | some (y, r) =>
    match expect '-' r with
    | none => none
    | some r =>
      match parse2 r with
      | none => none
      | some (mo, r) =>
        match expect '-' r with
        | none => none
        | some r =>
          match parse2 r with
          | none => none
          | some (d, r) =>
            match expect sep r with
            | none => none
            | some r =>
              match parse2 r with
              | none => none
              | some (h, r) =>
                match expect ':' r with
                | none => none
                | some r =>
                  match parse2 r with
                  | none => none
                  | some (mi, r) =>
                    match expect ':' r with
                    | none => none
                    | some r =>
                      match parse2 r with
                      | none => none
                      | some (s, r) => some ((y, mo, d, h, mi, s), r)

/-- Parse the RFC3339 zone suffix: `Z` or `±hh:mm` (offset in minutes). -/
def parseOffset (cs : List Char) : Option (Int × List Char) :=
  match cs with
  | c :: rest =>
    if c = 'Z' then some (0, rest)
    else if c = '+' then
      match parse2 rest with
      | none => none
      | some (h, r1) =>
        match expect ':' r1 with
        | none => none
        | some r2 =>
          match parse2 r2 with
          | none => none
          | some (m, r3) => some (((h : Int) * 60 + m, r3))
    else if c = '-' then
      match parse2 rest with
      | none => none
      | some (h, r1) =>
        match expect ':' r1 with
        | none => none
        | some r2 =>
          match parse2 r2 with
          | none => none
          | some (m, r3) => some ((-((h : Int) * 60 + m), r3))
    else none
  | [] => none

/-- Layout 1 of `getLastRunTime`: `time.RFC3339`. -/
def parseRFC3339L (cs : List Char) : Option DateTime :=
  match parseYMDHMS 'T' cs with
  | none => none
  | some ((y, mo, d, h, mi, s), r) =>
    match parseFrac r with
    | none => none
    | some (ns, r) =>
      match parseOffset r with
      | none => none
      | some (off, r) =>
        if r.isEmpty && validParts y mo d h mi s then
          some ⟨y, mo, d, h, mi, s, ns, off⟩
        else none

/-- Layout 2 of `getLastRunTime`: `2006-01-02T15:04:05.999999`
(fractional second optional when parsing); no zone, so UTC offset 0. -/
def parseFracLocalL (cs : List Char) : Option DateTime :=
  match parseYMDHMS 'T' cs with
  | none => none
  | some ((y, mo, d, h, mi, s), r) =>
    match parseFrac r with
    | none => none
    | some (ns, r) =>
      if r.isEmpty && validParts y mo d h mi s then
        some ⟨y, mo, d, h, mi, s, ns, 0⟩
      else none

/-- Layout 3 of `getLastRunTime`: `2006-01-02T15:04:05`.  Go's
`time.Parse` still accepts an optional fractional second after the
seconds field even though the layout does not mention one. -/
def parseLocalL (cs : List Char) : Option DateTime :=
  match parseYMDHMS 'T' cs with
  | none => none
  | some ((y, mo, d, h, mi, s), r) =>
    match parseFrac r with
    | none => none
    | some (ns, r) =>
      if r.isEmpty && validParts y mo d h mi s then
        some ⟨y, mo, d, h, mi, s, ns, 0⟩
      else none

/-- Layout 4 of `getLastRunTime`: `2006-01-02 15:04:05` (space
separator, optional fraction, UTC). -/
def parseSpaceL (cs : List Char) : Option DateTime :=
  match parseYMDHMS ' ' cs with
  | none => none
  | some ((y, mo, d, h, mi, s), r) =>
    match parseFrac r with
    | none => none
    | some (ns, r) =>
      if r.isEmpty && validParts y mo d h mi s then
        some ⟨y, mo, d, h, mi, s, ns, 0⟩
      else none

def parseRFC3339S (s : String) : Option DateTime := parseRFC3339L s.data

def parseFracLocalS (s : String) : Option DateTime := parseFracLocalL s.data

def parseLocalS (s : String) : Option DateTime := parseLocalL s.data

def parseSpaceS (s : String) : Option DateTime := parseSpaceL s.data

/-- The nested fallback chain of `getLastRunTime`: the four layouts
tried in strict order, first success wins. -/
def parseLastRunTime (s : String) : Option DateTime :=
  match parseRFC3339S s with
  | some t => some t
  | none =>
    match parseFracLocalS s with
    | some t => some t
    | none =>
      match parseLocalS s with
      | some t => some t
      | none => parseSpaceS s

/-- The `2006-01-02<sep>15:04:05` part of a rendered timestamp. -/
def ymdhmsPart (sep : Char) (t : DateTime) : List Char :=
  write4 t.year ++ '-' :: write2 t.month ++ '-' :: write2 t.day ++
    sep :: write2 t.hour ++ ':' :: write2 t.minute ++ ':' :: write2 t.second

/-- Render the RFC3339 zone suffix: `Z` for offset zero, else `±hh:mm`. -/
def writeOffset (off : Int) : List Char :=
  if off = 0 then ['Z']
  else if 0 < off then
    '+' :: write2 (off.toNat / 60) ++ ':' :: write2 (off.toNat % 60)
  else
    '-' :: write2 ((-off).toNat / 60) ++ ':' :: write2 ((-off).toNat % 60)

/-- `time.Time.Format(time.RFC3339)` as used by `saveLastRunTime`:
whole seconds (the layout carries no fractional field) plus the zone
suffix. -/
def formatRFC3339 (t : DateTime) : List Char :=
  ymdhmsPart 'T' t ++ writeOffset t.offMin

/-- Modelled from the spec: a timestamp "written in" the legacy layout
`2006-01-02T15:04:05.999999` (the repository only parses this layout;
rendering follows Go's `Format` semantics for it, microseconds with
trailing zeros removed). -/
def writeFracLocal (t : DateTime) : List Char :=
  ymdhmsPart 'T' t ++ writeFrac t.nanos

/-- Modelled from the spec: a timestamp written in the legacy layout
`2006-01-02T15:04:05`. -/
def writeLocal (t : DateTime) : List Char :=
  ymdhmsPart 'T' t

/-- Modelled from the spec: a timestamp written in the legacy layout
`2006-01-02 15:04:05`. -/
def writeSpace (t : DateTime) : List Char :=
  ymdhmsPart ' ' t

/-- The hypotheses under which a `DateTime` is a well-formed wall-clock
time renderable in the formats above. -/
def ValidDT (t : DateTime) : Prop :=
  t.year ≤ 9999 ∧ 1 ≤ t.month ∧ t.month ≤ 12 ∧ 1 ≤ t.day ∧
    t.day ≤ daysInMonth t.year t.month ∧ t.hour ≤ 23 ∧ t.minute ≤ 59 ∧
    t.second ≤ 59 ∧ t.nanos < 1000000000 ∧ t.offMin.natAbs ≤ 1439

instance (t : DateTime) : Decidable (ValidDT t) := by
  unfold ValidDT
  infer_instance

/-! ## The persisted state (`LastRunInfo`) -/

/-- The JSON object persisted in the last-run state file
(`{last_run_time, data_type, zabbix_host}`); the JSON encoding itself
is modelled structurally since every claim concerns the timestamp text,
not the JSON syntax. -/
structure LastRunInfo where
  lastRunTime : String
  dataType : String
  zabbixHost : String
deriving DecidableEq, Repr

/-- `saveLastRunTime`: persist the run time rendered with
`time.RFC3339` together with the data type and host. -/
def saveLastRunTime (runTime : DateTime) (dataType zabbixHost : String) : LastRunInfo :=
  { lastRunTime := String.mk (formatRFC3339 runTime)
    dataType := dataType
    zabbixHost := zabbixHost }

/-- `getLastRunTime`: read the state file (`none` models a missing or
unreadable file or undecodable JSON) and try the four timestamp layouts
in strict order. -/
def getLastRunTime (file : Option LastRunInfo) : Option DateTime :=
  match file with
  | none => none
  | some info => parseLastRunTime info.lastRunTime

/-! ## JSON values, traffic records, and sites -/

/-- A decoded JSON value (Go `interface{}` after `json.Unmarshal`):
numbers decode to `float64` (modelled as `Rat`), and objects/arrays to
maps/slices. -/
inductive JValue where
  | num (x : Rat)
  | str (s : String)
  | bool (b : Bool)
  | arr (xs : List JValue)
  | obj (fields : List (String × JValue))
  | null

/-- A traffic-log record: Go `map[string]interface{}` (keys unique). -/
abbrev TrafficRecord := List (String × JValue)

/-- Go map indexing `m[key]` on a decoded JSON object. -/
def lookupJ : List (String × JValue) → String → Option JValue
  | [], _ => none
  | (k, v) :: rest, key => if k = key then some v else lookupJ rest key

/-- Whether a JSON value is the sentinel string `"-"` (the Go comparison
`v != "-"` is false exactly on this value). -/
def isDash : JValue → Bool
  | .str s => s = "-"
  | _ => false

/-- `getFloatValue`: fetch `m[key]` and switch on its dynamic type —
a `float64` is returned as-is, the sentinel string `"-"` yields 0, and
every other case (other strings, absent key, bools, arrays, objects,
null) falls through to the final `return 0`. -/
def getFloatValue (m : TrafficRecord) (key : String) : Rat :=
  match lookupJ m key with
  | some v =>
    match v with
    | .num val => val
    | .str val => if val = "-" then 0 else 0
    | _ => 0
  | none => 0

/-- The per-record validity test used by `tryGetData` and
`getTrafficData`: some field other than `timestamp` is not the
sentinel. -/
def validRecord (r : TrafficRecord) : Bool :=
  r.any (fun kv => kv.1 != "timestamp" && !(isDash kv.2))

/-- `Site` as decoded from the paginated site listing. -/
structure Site where
  id : String
  name : String
  enabled : Bool
  structId : String
deriving DecidableEq, Repr

/-- `TrafficData`: one parsed sample; all metric fields are `float64`
(Go zero value 0 when left unset, as in `TrafficData{Timestamp: …}`). -/
structure TrafficData where
  timestamp : Int
  bytesInRateAvg : Rat := 0
  bytesInRateMax : Rat := 0
  bytesOutRateAvg : Rat := 0
  bytesOutRateMax : Rat := 0
  connCurAvg : Rat := 0
  connCurMax : Rat := 0
  connRateAvg : Rat := 0
  httpReqCntAvg : Rat := 0
  httpReqCntMax : Rat := 0
  httpReqRateAvg : Rat := 0
deriving DecidableEq, Repr

/-! ## Unix seconds

`time.Time.Unix()` for a parsed wall-clock time: days from the civil
epoch (proleptic Gregorian), then seconds, minus the zone offset.  No
claim depends on the arithmetic details; it is included so the embedded
`getTrafficData` is complete.
-/

/-- Day count from 1970-01-01 for a civil date (standard
days-from-civil algorithm with truncating division). -/
def daysFromCivil (y m d : Int) : Int :=
  let y' := if m ≤ 2 then y - 1 else y
  let era := (if 0 ≤ y' then y' else y' - 399) / 400
  let yoe := y' - era * 400
  let mp := if 2 < m then m - 3 else m + 9
  let doy := (153 * mp + 2) / 5 + d - 1
  let doe := yoe * 365 + yoe / 4 - yoe / 100 + doy
  era * 146097 + doe - 719468

/-- `t.Unix()`: seconds since the epoch. -/
def toUnix (t : DateTime) : Int :=
  86400 * daysFromCivil t.year t.month t.day
    + 3600 * t.hour + 60 * t.minute + t.second - 60 * t.offMin

/-- A Go value carried by a Zabbix item (`interface{}` in
`ZabbixData.Value`): the collector stores ints (statuses, the
timestamp), `float64` metrics, and strings (the discovery payload). -/
inductive GoValue where
  | int (n : Int)
  | rat (x : Rat)
  | str (s : String)
deriving DecidableEq, Repr

/-- `ZabbixData`: one metric point `{host, key, value, clock}`. -/
structure ZabbixData where
  host : String
  key : String
  value : GoValue
  clock : Int
deriving DecidableEq, Repr

/-! ## The collector environment

All appliance responses and the sink verdict are oracle parameters; the
collector itself is deterministic given them.  `deviceID` is the (cached)
result of `getDeviceID` — the empty string models its failure; `tree c`
is the decoded body of `/api/v1/website/tree/<c>/` (`none` models a
request or decode error); `probe` is the body of the minute-granularity
traffic probe issued by `tryGetData`; `fetchTraffic a d start end` is
the body of the main traffic query of `getTrafficData`; `sendOk` is the
`zabbix_sender` verdict of `sendToZabbix`.
-/

structure Env where
  loginOk : Bool
  deviceID : String
  serial : String
  sites : List Site
  tree : String → Option JValue
  probe : String → String → Option (List TrafficRecord)
  fetchTraffic : String → String → Int → Int → Option (List TrafficRecord)
  dataType : String
  zabbixHost : String
  now : Int
  runStart : DateTime
  sendOk : List ZabbixData → Bool

/-- `tryGetData`: issue the minute-granularity probe and report whether
any record has a non-sentinel, non-timestamp field; any HTTP or decode
error is a soft `false`. -/
def tryGetData (env : Env) (appID deviceID : String) : Bool :=
  match env.probe appID deviceID with
  | none => false
  | some records => records.any validRecord

/-- The cluster `_pk`s encountered by the three-level topology descent
(root list → `children` areas → `children` clusters) in order. -/
def treeClusterIDs : JValue → List String
  | .arr items =>
    items.flatMap fun item =>
      match item with
      | .obj fields =>
        match lookupJ fields "children" with
        | some (.arr areas) =>
          areas.flatMap fun area =>
            match area with
            | .obj afields =>
              match lookupJ afields "children" with
              | some (.arr clusters) =>
                clusters.filterMap fun cl =>
                  match cl with
                  | .obj cfields =>
                    match lookupJ cfields "_pk" with
                    | some (.str pk) => some pk
                    | _ => none
                  | _ => none
              | _ => []
            | _ => []
          | _ => []
      | _ => []
  | _ => []

/-- The topology categories walked by method 3, in source order. -/
def siteTypes : List String := ["reverse", "transparent", "traction", "sniffer", "bridge"]

/-- Probe each candidate in order with `tryGetData`, recording every
probe made, until one returns valid data. -/
def probeList (env : Env) (appID : String) : List String → Option String × List (String × String)
  | [] => (none, [])
  | c :: rest =>
    if tryGetData env appID c then (some c, [(appID, c)])
    else
      let p := probeList env appID rest
      (p.1, (appID, c) :: p.2)

/-- The candidate identifiers probed after the direct attempt, in the
order the fallback methods of `findWorkingDeviceID` produce them:
method 1 (first cached site matching the `struct_pk` conditions),
method 2 (the primary device id), method 3 (filtered topology cluster
ids per category), method 4 (the device serial). -/
def fallbackCandidates (env : Env) (appID originalDeviceID : String) : List String :=
  (match env.sites.find? (fun s =>
      s.id == appID && s.structId != "" && s.structId != originalDeviceID
        && s.structId != "0") with
   | some s => [s.structId]
   | none => []) ++
  (if env.deviceID ≠ "" ∧ env.deviceID ≠ originalDeviceID then [env.deviceID] else []) ++
  (siteTypes.flatMap fun st =>
    match env.tree st with
    | none => []
    | some j => (treeClusterIDs j).filter fun c =>
        c != "" && c != "0" && c != "1" && c != originalDeviceID) ++
  (if env.serial ≠ "" ∧ env.serial ≠ originalDeviceID then [env.serial] else [])

/-- `findWorkingDeviceID` together with the trace of `tryGetData` calls
it makes.  Strategy 1: a candidate in {`""`, `"0"`, `"auto"`} is
replaced by the primary device id — returned immediately, without any
probe — whenever that id is available; otherwise the direct probe of the
candidate runs, then the fallback methods in order, and exhaustion
returns the original candidate unchanged. -/
def findWorkingDeviceID (env : Env) (appID originalDeviceID : String) :
    String × List (String × String) :=
  if (originalDeviceID = "" ∨ originalDeviceID = "0" ∨ originalDeviceID = "auto")
      ∧ env.deviceID ≠ "" then
    (env.deviceID, [])
  else if tryGetData env appID originalDeviceID then
    (originalDeviceID, [(appID, originalDeviceID)])
  else
    let p := probeList env appID (fallbackCandidates env appID originalDeviceID)
    (p.1.getD originalDeviceID, (appID, originalDeviceID) :: p.2)

/-- Structural insertion sort (used to model Go's deterministic sorts:
`sort.Slice` on samples and the sorted JSON map keys of
`json.Marshal`); executable by the kernel. -/
def insertBy {α : Type} (le : α → α → Bool) (x : α) : List α → List α
  | [] => [x]
  | y :: ys => if le x y then x :: y :: ys else y :: insertBy le x ys

/-- Sort a list with the given comparison. -/
def sortBy {α : Type} (le : α → α → Bool) (l : List α) : List α :=
  l.foldr (insertBy le) []

/-- Byte-wise (code point) lexicographic order on strings, as Go
compares strings. -/
def lexLe : List Char → List Char → Bool
  | [], _ => true
  | _ :: _, [] => false
  | a :: as, b :: bs =>
    if a.toNat < b.toNat then true
    else if b.toNat < a.toNat then false
    else lexLe as bs

/-- String comparison for JSON key ordering. -/
def strLe (a b : String) : Bool := lexLe a.data b.data

/-! ## The query window -/

/-- The per-granularity look-back ceiling of `getTrafficData`, in
seconds (the source uses `time.Duration`; only ratios of durations to
seconds matter here): the `maxRanges` map lookup (0 for a missing key)
followed by the `== 0 → 24h` default. -/
def maxRangeFor (dataType : String) : Int :=
  let m : Int :=
    if dataType = "mins" then 86400
    else if dataType = "hours" then 604800
    else if dataType = "days" then 2592000
    else 0
  if m = 0 then 86400 else m

/-- The cold-start window of `getTrafficData`: the `timeWindows` map
lookup followed by the `== 0 → 5m` default. -/
def initialWindowFor (dataType : String) : Int :=
  let m : Int :=
    if dataType = "mins" then 300
    else if dataType = "hours" then 7200
    else if dataType = "days" then 172800
    else 0
  if m = 0 then 300 else m

/-- The `(startTime, endTime)` pair `getTrafficData` computes:
`end = now`; with prior state, `start` is the last run time clipped to
the ceiling; on cold start, `start = now - initialWindow`. -/
def computeWindow (dataType : String) (lastRun : Option Int) (now : Int) : Int × Int :=
  match lastRun with
  | some lr =>
    let minStart := now - maxRangeFor dataType
    (if lr < minStart then minStart else lr, now)
  | none => (now - initialWindowFor dataType, now)

/-! ## Fetching and parsing traffic samples -/

/-- The record-to-sample step of `getTrafficData`'s result loop:
records with no valid field are dropped; the `timestamp` field is used
when it is a non-empty string that parses under `2006-01-02 15:04:05`,
otherwise the current time stands in; metric fields go through
`getFloatValue`. -/
def parseTrafficRecord (now : Int) (record : TrafficRecord) : Option TrafficData :=
  if validRecord record then
    let timestamp : Int :=
      match lookupJ record "timestamp" with
      | some (.str tsStr) =>
        if tsStr ≠ "" then
          match parseSpaceS tsStr with
          | some t => toUnix t
          | none => now
        else now
      | _ => now
    some
      { timestamp := timestamp
        bytesInRateAvg := getFloatValue record "bytes_in_rate_avg"
        bytesInRateMax := getFloatValue record "bytes_in_rate_max"
        bytesOutRateAvg := getFloatValue record "bytes_out_rate_avg"
        bytesOutRateMax := getFloatValue record "bytes_out_rate_max"
        connCurAvg := getFloatValue record "conn_cur_avg"
        connCurMax := getFloatValue record "conn_cur_max"
        connRateAvg := getFloatValue record "conn_rate_avg"
        httpReqCntAvg := getFloatValue record "http_req_cnt_avg"
        httpReqCntMax := getFloatValue record "http_req_cnt_max"
        httpReqRateAvg := getFloatValue record "http_req_rate_avg" }
  else none

/-- `getTrafficData`, paired with the number of state-file reads it
performs (exactly the one unconditional `getLastRunTime` call).  The
resolver runs first; the window is computed from the (single) state
read; a request/decode error or an empty set of valid samples yields
the single synthetic zero sample stamped `now`; with more than one
sample the source sorts them by timestamp (for its interval log) before
returning. -/
def getTrafficDataT (env : Env) (file : Option LastRunInfo) (appID deviceID : String) :
    List TrafficData × Nat :=
  let workingDeviceID := (findWorkingDeviceID env appID deviceID).1
  let lastRun := getLastRunTime file
  let reads := 1
  let win := computeWindow env.dataType (lastRun.map toUnix) env.now
  match env.fetchTraffic appID workingDeviceID win.1 win.2 with
  | none => ([{ timestamp := env.now }], reads)
  | some records =>
    let dataPoints := (records.filterMap (parseTrafficRecord env.now))
    let dataPoints :=
      if 1 < dataPoints.length then
        sortBy (fun a b => decide (a.timestamp ≤ b.timestamp)) dataPoints
      else dataPoints
    if dataPoints.isEmpty then ([{ timestamp := env.now }], reads)
    else (dataPoints, reads)

/-! ## Assembling Zabbix points -/

/-- The ten zero-valued per-site keys sent for a disabled site, in
source order. -/
def zeroKeys : List String :=
  ["bytes_in_rate_avg", "bytes_in_rate_max",
   "bytes_out_rate_avg", "bytes_out_rate_max",
   "conn_cur_avg", "conn_cur_max", "conn_rate_avg",
   "http_req_cnt_avg", "http_req_cnt_max", "http_req_rate_avg"]

/-- The ten metric points emitted for one traffic sample of an enabled
site, clocked with the sample's own timestamp, in source order. -/
def metricPoints (host siteName : String) (d : TrafficData) : List ZabbixData :=
  [{ host := host, key := "waf.site.bytes_in_rate_avg[" ++ siteName ++ "]",
     value := .rat d.bytesInRateAvg, clock := d.timestamp },
   { host := host, key := "waf.site.bytes_in_rate_max[" ++ siteName ++ "]",
     value := .rat d.bytesInRateMax, clock := d.timestamp },
   { host := host, key := "waf.site.bytes_out_rate_avg[" ++ siteName ++ "]",
     value := .rat d.bytesOutRateAvg, clock := d.timestamp },
   { host := host, key := "waf.site.bytes_out_rate_max[" ++ siteName ++ "]",
     value := .rat d.bytesOutRateMax, clock := d.timestamp },
   { host := host, key := "waf.site.conn_cur_avg[" ++ siteName ++ "]",
     value := .rat d.connCurAvg, clock := d.timestamp },
   { host := host, key := "waf.site.conn_cur_max[" ++ siteName ++ "]",
     value := .rat d.connCurMax, clock := d.timestamp },
   { host := host, key := "waf.site.conn_rate_avg[" ++ siteName ++ "]",
     value := .rat d.connRateAvg, clock := d.timestamp },
   { host := host, key := "waf.site.http_req_cnt_avg[" ++ siteName ++ "]",
     value := .rat d.httpReqCntAvg, clock := d.timestamp },
   { host := host, key := "waf.site.http_req_cnt_max[" ++ siteName ++ "]",
     value := .rat d.httpReqCntMax, clock := d.timestamp },
   { host := host, key := "waf.site.http_req_rate_avg[" ++ siteName ++ "]",
     value := .rat d.httpReqRateAvg, clock := d.timestamp }]

/-- The candidate device id the collector hands `getTrafficData` (and
hence the resolver) for an enabled site: only the literal `"0"` is
replaced by the primary device id — an empty `structId` is passed
through as the empty string. -/
def actualDeviceIDFor (deviceID : String) (site : Site) : String :=
  if site.structId ≠ "0" then site.structId else deviceID

/-- One site's `DiscoveryRecord` macros: here both `"0"` *and* the
empty string are replaced by the primary device id. -/
def discoveryRecord (deviceID : String) (site : Site) : List (String × String) :=
  let siteDeviceID := if site.structId = "0" ∨ site.structId = "" then deviceID
                      else site.structId
  let enableStr := if site.enabled then "1" else "0"
  [("\x7b#SITE_ID\x7d", site.id),
   ("\x7b#SITE_NAME\x7d", site.name),
   ("\x7b#SITE_TYPE\x7d", "WAF"),
   ("\x7b#SITE_IP\x7d", ""),
   ("\x7b#SITE_PORT\x7d", ""),
   ("\x7b#SITE_DOMAIN\x7d", ""),
   ("\x7b#SITE_ENABLE\x7d", enableStr),
   ("\x7b#STRUCT_ID\x7d", siteDeviceID),
   ("\x7b#DEVICE_ID\x7d", siteDeviceID),
   ("\x7b#STRUCT_PK\x7d", site.structId)]

/-- JSON string escaping for the discovery payload (Go additionally
escapes HTML characters as `\uXXXX`; no claim depends on the payload
text, so only the basic escapes are modelled). -/
def jsonEscape (s : String) : String :=
  String.mk (s.data.flatMap fun c =>
    if c = '\\' then ['\\', '\\']
    else if c = '"' then ['\\', '"']
    else if c = '\n' then ['\\', 'n']
    else [c])

/-- Render one discovery record as a JSON object (Go marshals maps with
keys in sorted order). -/
def jsonObject (fields : List (String × String)) : String :=
  let sorted := sortBy (fun a b => strLe a.1 b.1) fields
  "\x7b" ++ String.intercalate ","
    (sorted.map fun kv => "\"" ++ jsonEscape kv.1 ++ "\":\"" ++ jsonEscape kv.2 ++ "\"")
    ++ "\x7d"

/-- The `waf.sites.discovery` payload: `{"data":[…]}`. -/
def discoveryJSON (deviceID : String) (sites : List Site) : String :=
  "\x7b\"data\":[" ++
    String.intercalate "," (sites.map fun s => jsonObject (discoveryRecord deviceID s))
    ++ "]\x7d"

/-- The result of one site's iteration of the collection loop: the
points it appends, the `(app_id, device_id)` argument of its
`getTrafficData` call if any (this is also the candidate handed to the
resolver), and its state-file reads. -/
structure SiteBlock where
  points : List ZabbixData
  calls : List (String × String)
  reads : Nat
deriving DecidableEq, Repr

/-- The body of the per-site loop of `collectAllData`: the status
point, then — enabled — the metric points of every fetched sample, or —
disabled — the ten zero points clocked at the collection timestamp,
with no API call. -/
def siteBlock (env : Env) (file : Option LastRunInfo) (deviceID : String) (site : Site) :
    SiteBlock :=
  let statusPoint : ZabbixData :=
    { host := env.zabbixHost
      key := "waf.site.status[" ++ site.name ++ "]"
      value := .int (if site.enabled then 1 else 0)
      clock := env.now }
  if site.enabled then
    let actualDeviceID := actualDeviceIDFor deviceID site
    let fetched := getTrafficDataT env file site.id actualDeviceID
    { points := statusPoint :: fetched.1.flatMap (metricPoints env.zabbixHost site.name)
      calls := [(site.id, actualDeviceID)]
      reads := fetched.2 }
  else
    { points := statusPoint :: zeroKeys.map fun k =>
        { host := env.zabbixHost
          key := "waf.site." ++ k ++ "[" ++ site.name ++ "]"
          value := .int 0
          clock := env.now }
      calls := []
      reads := 0 }

/-- The result of `collectAllData`, together with the run's state-file
read count and the trace of `getTrafficData` calls. -/
structure CollectResult where
  data : List ZabbixData
  stateReads : Nat
  trafficCalls : List (String × String)
deriving DecidableEq, Repr

/-- `collectAllData`: abort (empty result) when the connectivity check
fails or no sites are discovered; otherwise the two collector liveness
points, the discovery point, then every site's block in order.  A
failed device-id fetch substitutes the literal `"default"`. -/
def collectAllData (env : Env) (file : Option LastRunInfo) : CollectResult :=
  if !env.loginOk then { data := [], stateReads := 0, trafficCalls := [] }
  else
    let deviceID := if env.deviceID = "" then "default" else env.deviceID
    if env.sites.isEmpty then { data := [], stateReads := 0, trafficCalls := [] }
    else
      let timestamp := env.now
      let base : List ZabbixData :=
        [{ host := env.zabbixHost, key := "waf.collector.status",
           value := .int 1, clock := timestamp },
         { host := env.zabbixHost, key := "waf.collector.timestamp",
           value := .int timestamp, clock := timestamp },
         { host := env.zabbixHost, key := "waf.sites.discovery",
           value := .str (discoveryJSON deviceID env.sites), clock := timestamp }]
      let blocks := env.sites.map (siteBlock env file deviceID)
      { data := base ++ blocks.flatMap SiteBlock.points
        stateReads := (blocks.map SiteBlock.reads).sum
        trafficCalls := blocks.flatMap SiteBlock.calls }

/-- The result of one `run`: the exit verdict, the state file after the
run, and the run's state-file read/write counts. -/
structure RunResult where
  success : Bool
  file : Option LastRunInfo
  stateReads : Nat
  stateWrites : Nat
deriving DecidableEq, Repr

/-- `run`: capture the run-start time, collect, deliver; only a
confirmed delivery writes the state file — with the captured start
time, not the save-time clock — and any failure (empty collection or
sink error) leaves the file untouched.  (The failure-path
`sendCollectorStatus(0)` call writes only to the sink, never to the
state file.) -/
def run (env : Env) (file : Option LastRunInfo) : RunResult :=
  let currentRunTime := env.runStart
  let cr := collectAllData env file
  if 0 < cr.data.length then
    if env.sendOk cr.data then
      { success := true
        file := some (saveLastRunTime currentRunTime env.dataType env.zabbixHost)
        stateReads := cr.stateReads
        stateWrites := 1 }
    else
      { success := false, file := file, stateReads := cr.stateReads, stateWrites := 0 }
  else
    { success := false, file := file, stateReads := cr.stateReads, stateWrites := 0 }

/-! ## The line-protocol encoder (`sendToZabbix`) -/

/-- `fmt.Sprintf("%v", item.Value)`.  Ints render in decimal.  For
`float64` values Go's `%v` is the shortest-representation `%g`
rendering, which floating-point formatting puts outside this embedding;
the placeholder below is never relied on by any theorem — the encoder
treats every non-string value verbatim regardless of its rendering. -/
def renderValue : GoValue → String
  | .int n => toString n
  | .rat x => toString x
  | .str s => s

/-- `strings.ReplaceAll(v, "\\", "\\\\")`: double every backslash. -/
def escapeBackslash (s : String) : String :=
  String.mk (s.data.flatMap fun c => if c = '\\' then ['\\', '\\'] else [c])

/-- `strings.ReplaceAll(v, "\"", "\\\"")`: escape every double quote. -/
def escapeQuote (s : String) : String :=
  String.mk (s.data.flatMap fun c => if c = '"' then ['\\', '"'] else [c])

/-- The key column: quoted iff the key contains a space or `[`. -/
def encodeKey (key : String) : String :=
  if key.data.contains ' ' || key.data.contains '[' then "\"" ++ key ++ "\"" else key

/-- The value column: a string containing a space, a double quote or a
newline is escaped (backslashes first, then quotes) and wrapped in
quotes; any other value keeps its `%v` rendering verbatim. -/
def encodeValue (v : GoValue) : String :=
  let value := renderValue v
  match v with
  | .str strVal =>
    if strVal.data.contains ' ' || strVal.data.contains '"' || strVal.data.contains '\n' then
      "\"" ++ escapeQuote (escapeBackslash strVal) ++ "\""
    else value
  | _ => value

/-- One wire line: `host key clock value\n`. -/
def encodeLine (item : ZabbixData) : String :=
  item.host ++ " " ++ encodeKey item.key ++ " " ++ toString item.clock ++ " "
    ++ encodeValue item.value ++ "\n"

/-- The whole buffer handed to `zabbix_sender`. -/
def encodeLines (data : List ZabbixData) : String :=
  String.join (data.map encodeLine)

/-- An environment in which the primary-device-id fetch fails
(`getDeviceID` returns the empty string) while the traffic probe
returns valid data. -/
def primaryFetchFailsEnv : Env :=
  { loginOk := true
    deviceID := ""
    serial := ""
    sites := []
    tree := fun _ => none
    probe := fun _ _ => some [[("bytes_in_rate_avg", .num 1)]]
    fetchTraffic := fun _ _ _ _ => none
    dataType := "mins"
    zabbixHost := "h"
    now := 0
    runStart := ⟨2024, 1, 1, 0, 0, 0, 0, 0⟩
    sendOk := fun _ => true }

/-- An environment whose primary-device-id fetch succeeds. -/
def primaryOkEnv : Env :=
  { primaryFetchFailsEnv with deviceID := "dev-1" }

/-- A disabled demo site. -/
def demoDisabledSite : Site := ⟨"s9", "portal", false, "77"⟩

/-- An environment whose main traffic query always fails. -/
def fetchFailsEnv : Env :=
  { primaryOkEnv with now := 5 }

/-- A concrete enabled site. -/
def demoEnabledSite : Site := ⟨"s1", "shop", true, "x1"⟩

/-- An environment with two enabled sites (probes succeed immediately,
the main query returns an empty result set). -/
def twoEnabledEnv : Env :=
  { loginOk := true
    deviceID := "d"
    serial := ""
    sites := [⟨"s1", "one", true, "x1"⟩, ⟨"s2", "two", true, "x2"⟩]
    tree := fun _ => none
    probe := fun _ _ => some [[("conn_cur_avg", .num 1)]]
    fetchTraffic := fun _ _ _ _ => some []
    dataType := "mins"
    zabbixHost := "h"
    now := 1000
    runStart := ⟨2024, 1, 1, 0, 0, 0, 0, 0⟩
    sendOk := fun _ => true }

theorem digitVal_digitChar (n : Nat) (h : n < 10) : digitVal (digitChar n) = some n := by
  interval_cases n <;> rfl

theorem parse2_write2 (n : Nat) (h : n < 100) (r : List Char) :
    parse2 (write2 n ++ r) = some (n, r) := by
  have h1 := digitVal_digitChar (n / 10) (by omega)
  have h2 := digitVal_digitChar (n % 10) (by omega)
  simp [write2, parse2, h1, h2]
  omega

theorem parse4_write4 (n : Nat) (h : n < 10000) (r : List Char) :
    parse4 (write4 n ++ r) = some (n, r) := by
  have h1 := digitVal_digitChar (n / 1000) (by omega)
  have h2 := digitVal_digitChar (n / 100 % 10) (by omega)
  have h3 := digitVal_digitChar (n / 10 % 10) (by omega)
  have h4 := digitVal_digitChar (n % 10) (by omega)
  simp [write4, parse4, h1, h2, h3, h4]
  omega

theorem expect_cons_self (c : Char) (r : List Char) : expect c (c :: r) = some r := by
  simp [expect]

theorem expect_cons_ne (c x : Char) (r : List Char) (h : x ≠ c) :
    expect c (x :: r) = none := by
  simp [expect, h]

theorem parseFrac_cons_ne (c : Char) (r : List Char) (h : c ≠ '.') :
    parseFrac (c :: r) = some (0, c :: r) := by
  simp [parseFrac, h]

theorem takeDigits_map_digitChar (ds : List Nat) (h : ∀ d ∈ ds, d < 10) :
    takeDigits (ds.map digitChar) = (ds, []) := by
  induction ds with
  | nil => rfl
  | cons d ds ih =>
    have hd : d < 10 := h d (by simp)
    have hrest : ∀ x ∈ ds, x < 10 := fun x hx => h x (by simp [hx])
    simp [takeDigits, digitVal_digitChar d hd, ih hrest]

theorem valD_append_replicate (l : List Nat) (k : Nat) :
    valD (l ++ List.replicate k 0) = valD l * 10 ^ k := by
  induction k generalizing l with
  | zero => simp [valD]
  | succ k ih =>
    have : l ++ List.replicate (k + 1) 0 = (l ++ [0]) ++ List.replicate k 0 := by
      simp [List.replicate_succ]
    rw [this, ih]
    simp [valD, List.foldl_append]
    ring

theorem stripZeros_spec (l : List Nat) :
    ∃ k, l = stripZeros l ++ List.replicate k 0 := by
  refine ⟨(l.reverse.takeWhile (fun d => d == 0)).length, ?_⟩
  have h1 : l.reverse.takeWhile (fun d => d == 0) ++ l.reverse.dropWhile (fun d => d == 0)
      = l.reverse := List.takeWhile_append_dropWhile _ _
  have h2 : l.reverse.takeWhile (fun d => d == 0)
      = List.replicate (l.reverse.takeWhile (fun d => d == 0)).length 0 := by
    apply List.eq_replicate_of_mem
    intro b hb
    have := List.mem_takeWhile_imp hb
    simpa using this
  calc l = l.reverse.reverse := by simp
    _ = (l.reverse.takeWhile (fun d => d == 0) ++ l.reverse.dropWhile (fun d => d == 0)).reverse := by
        rw [h1]
    _ = stripZeros l ++ List.replicate _ 0 := by
        rw [List.reverse_append, stripZeros]
        congr 1
        rw [h2]
        simp

theorem valD_pad6 (m : Nat) (h : m < 1000000) : valD (pad6 m) = m := by
  simp [valD, pad6]
  omega

theorem pad6_lt (m : Nat) : ∀ d ∈ pad6 m, d < 10 := by
  intro d hd
  simp [pad6] at hd
  rcases hd with h | h | h | h | h | h <;> omega

theorem parseFrac_writeFrac (nanos : Nat) (h9 : nanos < 1000000000) (hdvd : 1000 ∣ nanos) :
    parseFrac (writeFrac nanos) = some (nanos, []) := by
  obtain ⟨q, rfl⟩ := hdvd
  have hq : 1000 * q / 1000 = q := by omega
  by_cases hz : q = 0
  · subst hz
    simp [writeFrac, parseFrac]
  · have hq6 : q < 1000000 := by omega
    obtain ⟨k, hk⟩ := stripZeros_spec (pad6 q)
    have hlen : (pad6 q).length = 6 := by simp [pad6]
    have hlen' : (stripZeros (pad6 q)).length + k = 6 := by
      rw [hk] at hlen
      simpa using hlen
    have hval : valD (stripZeros (pad6 q)) * 10 ^ k = q := by
      rw [← valD_append_replicate, ← hk, valD_pad6 q hq6]
    have hne : stripZeros (pad6 q) ≠ [] := by
      intro hnil
      rw [hnil] at hval
      simp [valD] at hval
      omega
    have hlt : ∀ d ∈ stripZeros (pad6 q), d < 10 := by
      intro d hd
      apply pad6_lt q
      rw [hk]
      exact List.mem_append_left _ hd
    have hlb : 1 ≤ (stripZeros (pad6 q)).length := by
      cases hsz : stripZeros (pad6 q) with
      | nil => exact absurd hsz hne
      | cons a l => simp
    have hub : (stripZeros (pad6 q)).length ≤ 9 := by omega
    have hexp : 9 - (stripZeros (pad6 q)).length = 3 + k := by omega
    have hvv : valD (stripZeros (pad6 q)) * 10 ^ (9 - (stripZeros (pad6 q)).length)
        = 1000 * q := by
      rw [hexp, pow_add]
      calc valD (stripZeros (pad6 q)) * (10 ^ 3 * 10 ^ k)
          = valD (stripZeros (pad6 q)) * 10 ^ k * 1000 := by ring
        _ = 1000 * q := by rw [hval]; ring
    simp [writeFrac, hq, hz, parseFrac, takeDigits_map_digitChar _ hlt, hlb, hub, hvv]

theorem daysInMonth_le (y m : Nat) : daysInMonth y m ≤ 31 := by
  unfold daysInMonth isLeap
  split
  · split <;> omega
  · split <;> omega

theorem parseYMDHMS_ymdhmsPart (sep : Char) (t : DateTime) (r : List Char)
    (hy : t.year < 10000) (hmo : t.month < 100) (hd : t.day < 100)
    (hh : t.hour < 100) (hmi : t.minute < 100) (hs : t.second < 100) :
    parseYMDHMS sep (ymdhmsPart sep t ++ r)
      = some ((t.year, t.month, t.day, t.hour, t.minute, t.second), r) := by
  have e1 := parse4_write4 t.year hy
  have e2 := parse2_write2 t.month hmo
  have e3 := parse2_write2 t.day hd
  have e4 := parse2_write2 t.hour hh
  have e5 := parse2_write2 t.minute hmi
  have e6 := parse2_write2 t.second hs
  simp only [ymdhmsPart, List.append_assoc, List.cons_append, parseYMDHMS,
    e1, e2, e3, e4, e5, e6, expect_cons_self]

theorem parseOffset_writeOffset (off : Int) (habs : off.natAbs ≤ 1439) (r : List Char) :
    parseOffset (writeOffset off ++ r) = some (off, r) := by
  rcases lt_trichotomy off 0 with hneg | hzero | hpos
  · have h1 : ¬off = 0 := by omega
    have h2 : ¬0 < off := by omega
    have eh := parse2_write2 ((-off).toNat / 60) (by omega) (':' :: (write2 ((-off).toNat % 60) ++ r))
    have em := parse2_write2 ((-off).toNat % 60) (by omega) r
    simp only [writeOffset, if_neg h1, if_neg h2, List.cons_append, List.append_assoc,
      parseOffset, eh, em, expect_cons_self]
    simp only [if_neg (by decide : ¬('-' : Char) = 'Z'), if_neg (by decide : ¬('-' : Char) = '+'),
      if_pos rfl]
    have hv : -((((-off).toNat / 60 : Nat) : Int) * 60 + (((-off).toNat % 60 : Nat) : Int)) = off := by
      omega
    rw [hv]
    simp
  · subst hzero
    simp [writeOffset, parseOffset]
  · have h1 : ¬off = 0 := by omega
    have eh := parse2_write2 (off.toNat / 60) (by omega) (':' :: (write2 (off.toNat % 60) ++ r))
    have em := parse2_write2 (off.toNat % 60) (by omega) r
    simp only [writeOffset, if_neg h1, if_pos hpos, List.cons_append, List.append_assoc,
      parseOffset, eh, em, expect_cons_self]
    simp only [if_neg (by decide : ¬('+' : Char) = 'Z'), if_pos rfl]
    have hv : (((off.toNat / 60 : Nat) : Int) * 60 + ((off.toNat % 60 : Nat) : Int)) = off := by
      omega
    rw [hv]
    simp

theorem validParts_of_validDT (t : DateTime) (h : ValidDT t) :
    validParts t.year t.month t.day t.hour t.minute t.second = true := by
  obtain ⟨h1, h2, h3, h4, h5, h6, h7, h8, h9, h10⟩ := h
  simp only [validParts, Bool.and_eq_true, decide_eq_true_eq]
  refine ⟨⟨⟨⟨⟨⟨h2, h3⟩, h4⟩, h5⟩, h6⟩, h7⟩, h8⟩

/-- Canonical roundtrip: the string written by `saveLastRunTime` parses
under the first layout, recovering the time to whole-second precision. -/
theorem parseRFC3339_format (t : DateTime) (h : ValidDT t) :
    parseRFC3339L (formatRFC3339 t) = some { t with nanos := 0 } := by
  obtain ⟨h1, h2, h3, h4, h5, h6, h7, h8, h9, h10⟩ := h
  have hdm := daysInMonth_le t.year t.month
  have eY := parseYMDHMS_ymdhmsPart 'T' t (writeOffset t.offMin) (by omega) (by omega)
    (by omega) (by omega) (by omega) (by omega)
  have hfrac : parseFrac (writeOffset t.offMin) = some (0, writeOffset t.offMin) := by
    rcases lt_trichotomy t.offMin 0 with hneg | hzero | hpos
    · simp only [writeOffset, if_neg (by omega : ¬t.offMin = 0), if_neg (by omega : ¬0 < t.offMin),
        List.cons_append]
      exact parseFrac_cons_ne _ _ (by decide)
    · rw [hzero]
      simp only [writeOffset, if_pos rfl, List.cons_append]
      exact parseFrac_cons_ne _ _ (by decide)
    · simp only [writeOffset, if_neg (by omega : ¬t.offMin = 0), if_pos hpos, List.cons_append]
      exact parseFrac_cons_ne _ _ (by decide)
  have eOff := parseOffset_writeOffset t.offMin h10 []
  rw [List.append_nil] at eOff
  simp only [formatRFC3339, parseRFC3339L, eY, hfrac, eOff, List.isEmpty_nil,
    validParts_of_validDT t ⟨h1, h2, h3, h4, h5, h6, h7, h8, h9, h10⟩, Bool.and_self,
    if_pos rfl, if_true]

/-- Legacy layout 2 roundtrip (in isolation): a fractional-second local
timestamp parses back exactly when its nanoseconds are whole
microseconds×1000. -/
theorem parseFracLocal_write (t : DateTime) (h : ValidDT t) (hoff : t.offMin = 0)
    (hdvd : 1000 ∣ t.nanos) :
    parseFracLocalL (writeFracLocal t) = some t := by
  obtain ⟨h1, h2, h3, h4, h5, h6, h7, h8, h9, h10⟩ := h
  have hdm := daysInMonth_le t.year t.month
  have eY := parseYMDHMS_ymdhmsPart 'T' t (writeFrac t.nanos) (by omega) (by omega)
    (by omega) (by omega) (by omega) (by omega)
  have eF := parseFrac_writeFrac t.nanos h9 hdvd
  simp only [writeFracLocal, parseFracLocalL, eY, eF, List.isEmpty_nil,
    validParts_of_validDT t ⟨h1, h2, h3, h4, h5, h6, h7, h8, h9, h10⟩, Bool.and_self, if_true]
  cases t
  simp_all

/-- Legacy layout 3 roundtrip (in isolation): a whole-second local
timestamp parses back with zero nanoseconds. -/
theorem parseLocal_write (t : DateTime) (h : ValidDT t) (hoff : t.offMin = 0) :
    parseLocalL (writeLocal t) = some { t with nanos := 0 } := by
  obtain ⟨h1, h2, h3, h4, h5, h6, h7, h8, h9, h10⟩ := h
  have hdm := daysInMonth_le t.year t.month
  have eY := parseYMDHMS_ymdhmsPart 'T' t [] (by omega) (by omega) (by omega) (by omega)
      (by omega) (by omega)
  rw [List.append_nil] at eY
  simp only [writeLocal, parseLocalL, eY, parseFrac, List.isEmpty_nil,
    validParts_of_validDT t ⟨h1, h2, h3, h4, h5, h6, h7, h8, h9, h10⟩, Bool.and_self, if_true]
  cases t
  simp_all

/-- Legacy layout 4 roundtrip (in isolation): a space-separated
timestamp parses back with zero nanoseconds. -/
theorem parseSpace_write (t : DateTime) (h : ValidDT t) (hoff : t.offMin = 0) :
    parseSpaceL (writeSpace t) = some { t with nanos := 0 } := by
  obtain ⟨h1, h2, h3, h4, h5, h6, h7, h8, h9, h10⟩ := h
  have hdm := daysInMonth_le t.year t.month
  have eY := parseYMDHMS_ymdhmsPart ' ' t [] (by omega) (by omega) (by omega) (by omega)
      (by omega) (by omega)
  rw [List.append_nil] at eY
  simp only [writeSpace, parseSpaceL, eY, parseFrac, List.isEmpty_nil,
    validParts_of_validDT t ⟨h1, h2, h3, h4, h5, h6, h7, h8, h9, h10⟩, Bool.and_self, if_true]
  cases t
  simp_all

theorem parseYMDHMS_wrong_sep (sep sep' : Char) (t : DateTime) (r : List Char)
    (hy : t.year < 10000) (hmo : t.month < 100) (hd : t.day < 100)
    (hne : sep ≠ sep') :
    parseYMDHMS sep' (ymdhmsPart sep t ++ r) = none := by
  have e1 := parse4_write4 t.year hy
  have e2 := parse2_write2 t.month hmo
  have e3 := parse2_write2 t.day hd
  simp only [ymdhmsPart, List.append_assoc, List.cons_append, parseYMDHMS,
    e1, e2, e3, expect_cons_self, expect_cons_ne sep' sep _ hne]

theorem parseRFC3339_writeFracLocal (t : DateTime) (h : ValidDT t)
    (hdvd : 1000 ∣ t.nanos) :
    parseRFC3339L (writeFracLocal t) = none := by
  obtain ⟨h1, h2, h3, h4, h5, h6, h7, h8, h9, h10⟩ := h
  have hdm := daysInMonth_le t.year t.month
  have eY := parseYMDHMS_ymdhmsPart 'T' t (writeFrac t.nanos) (by omega) (by omega)
    (by omega) (by omega) (by omega) (by omega)
  have eF := parseFrac_writeFrac t.nanos h9 hdvd
  simp only [writeFracLocal, parseRFC3339L, eY, eF, parseOffset]

theorem parseRFC3339_writeLocal (t : DateTime) (h : ValidDT t) :
    parseRFC3339L (writeLocal t) = none := by
  obtain ⟨h1, h2, h3, h4, h5, h6, h7, h8, h9, h10⟩ := h
  have hdm := daysInMonth_le t.year t.month
  have eY := parseYMDHMS_ymdhmsPart 'T' t [] (by omega) (by omega) (by omega) (by omega)
    (by omega) (by omega)
  rw [List.append_nil] at eY
  simp only [writeLocal, parseRFC3339L, eY, parseFrac, parseOffset]

theorem tSep_parsers_fail_on_space (t : DateTime) (h : ValidDT t) :
    parseRFC3339L (writeSpace t) = none ∧ parseFracLocalL (writeSpace t) = none ∧
      parseLocalL (writeSpace t) = none := by
  obtain ⟨h1, h2, h3, h4, h5, h6, h7, h8, h9, h10⟩ := h
  have hdm := daysInMonth_le t.year t.month
  have eY := parseYMDHMS_wrong_sep ' ' 'T' t [] (by omega) (by omega) (by omega) (by decide)
  rw [List.append_nil] at eY
  refine ⟨?_, ?_, ?_⟩ <;> simp only [writeSpace, parseRFC3339L, parseFracLocalL, parseLocalL, eY]

theorem parseLastRunTime_format (t : DateTime) (h : ValidDT t) :
    parseLastRunTime (String.mk (formatRFC3339 t)) = some { t with nanos := 0 } := by
  have e := parseRFC3339_format t h
  simp only [parseLastRunTime, parseRFC3339S, String.data, e]

theorem getLastRunTime_save (t : DateTime) (h : ValidDT t) (dataType zabbixHost : String) :
    getLastRunTime (some (saveLastRunTime t dataType zabbixHost))
      = some { t with nanos := 0 } := by
  simp only [getLastRunTime, saveLastRunTime, parseLastRunTime_format t h]

theorem parseLastRunTime_writeFracLocal (t : DateTime) (h : ValidDT t) (hoff : t.offMin = 0)
    (hdvd : 1000 ∣ t.nanos) :
    parseLastRunTime (String.mk (writeFracLocal t)) = some t := by
  have e1 := parseRFC3339_writeFracLocal t h hdvd
  have e2 := parseFracLocal_write t h hoff hdvd
  simp only [parseLastRunTime, parseRFC3339S, parseFracLocalS, String.data, e1, e2]

theorem parseLastRunTime_writeLocal (t : DateTime) (h : ValidDT t) (hoff : t.offMin = 0) :
    parseLastRunTime (String.mk (writeLocal t)) = some { t with nanos := 0 } := by
  have e1 := parseRFC3339_writeLocal t h
  have hw : writeFracLocal { t with nanos := 0 } = writeLocal t := by
    simp [writeFracLocal, writeLocal, writeFrac, ymdhmsPart]
  have e2 := parseFracLocal_write { t with nanos := 0 }
    (by obtain ⟨h1, h2, h3, h4, h5, h6, h7, h8, h9, h10⟩ := h
        exact ⟨h1, h2, h3, h4, h5, h6, h7, h8, by simp, h10⟩)
    (by simpa using hoff) (by simp)
  rw [hw] at e2
  simp only [parseLastRunTime, parseRFC3339S, parseFracLocalS, String.data, e1, e2]

theorem parseLastRunTime_writeSpace (t : DateTime) (h : ValidDT t) (hoff : t.offMin = 0) :
    parseLastRunTime (String.mk (writeSpace t)) = some { t with nanos := 0 } := by
  obtain ⟨e1, e2, e3⟩ := tSep_parsers_fail_on_space t h
  have e4 := parseSpace_write t h hoff
  simp only [parseLastRunTime, parseRFC3339S, parseFracLocalS, parseLocalS, parseSpaceS,
    String.data, e1, e2, e3, e4]

/-! ## Claim theorems -/

/-- Claim C1: the persisted last-run state advances only on confirmed
delivery — `run` succeeds exactly when something was collected and the
sink accepted it, and the state file afterwards is the run-start time
(rendered at save) on success and completely unchanged otherwise
(failed delivery or an aborted collection). -/
theorem run_state_advances_only_on_delivery (env : Env) (file : Option LastRunInfo) :
    ((run env file).file =
      if (run env file).success then
        some (saveLastRunTime env.runStart env.dataType env.zabbixHost)
      else file)
    ∧ ((run env file).success =
        (decide (0 < (collectAllData env file).data.length)
          && env.sendOk (collectAllData env file).data)) := by
  by_cases h1 : 0 < (collectAllData env file).data.length
  · by_cases h2 : env.sendOk (collectAllData env file).data
    · simp [run, h1, h2]
    · simp [run, h1, h2]
  · simp [run, h1]

theorem maxRangeFor_eq (dataType : String) :
    maxRangeFor dataType =
      if dataType = "mins" then 86400
      else if dataType = "hours" then 604800
      else if dataType = "days" then 2592000
      else 86400 := by
  simp only [maxRangeFor]
  split_ifs <;> omega

theorem maxRangeFor_pos (dataType : String) : 0 < maxRangeFor dataType := by
  rw [maxRangeFor_eq]
  split_ifs <;> omega

/-- Claim C3: with prior state the window is `end = now` and
`start = lastRunTime` clipped so `end - start` never exceeds the
per-granularity ceiling (mins 24h, hours 7d, days 30d, anything else
24h); in particular `hours` with a last run 10 days back starts at
`now - 7d`. -/
theorem computeWindow_clipping (dataType : String) (lr now : Int) :
    (computeWindow dataType (some lr) now = (max lr (now - maxRangeFor dataType), now))
    ∧ (now - (computeWindow dataType (some lr) now).1 ≤ maxRangeFor dataType)
    ∧ (maxRangeFor dataType =
        if dataType = "mins" then 86400
        else if dataType = "hours" then 604800
        else if dataType = "days" then 2592000
        else 86400)
    ∧ (computeWindow "hours" (some (now - 864000)) now = (now - 604800, now)) := by
  have hpos := maxRangeFor_pos dataType
  refine ⟨?_, ?_, maxRangeFor_eq dataType, ?_⟩
  · simp only [computeWindow, Prod.mk.injEq, and_true]
    omega
  · simp only [computeWindow]
    split_ifs <;> omega
  · have h7 : maxRangeFor "hours" = 604800 := by rw [maxRangeFor_eq]; simp
    simp only [computeWindow, h7, Prod.mk.injEq, and_true]
    omega

/-- Claim C9: `getFloatValue` is total and collapses every non-number
to zero — a `float64` field is returned as-is, and an absent key, the
sentinel `"-"`, any other string (for example a numeric string), a
bool, an array, an object, or `null` all yield 0. -/
theorem getFloatValue_total (m : TrafficRecord) (key : String) :
    (∀ x : Rat, lookupJ m key = some (.num x) → getFloatValue m key = x)
    ∧ (lookupJ m key = none → getFloatValue m key = 0)
    ∧ (∀ s : String, lookupJ m key = some (.str s) → getFloatValue m key = 0)
    ∧ (∀ b : Bool, lookupJ m key = some (.bool b) → getFloatValue m key = 0)
    ∧ (∀ xs : List JValue, lookupJ m key = some (.arr xs) → getFloatValue m key = 0)
    ∧ (∀ fs : List (String × JValue), lookupJ m key = some (.obj fs) →
        getFloatValue m key = 0)
    ∧ (lookupJ m key = some .null → getFloatValue m key = 0) := by
  refine ⟨fun x h => ?_, fun h => ?_, fun s h => ?_, fun b h => ?_, fun xs h => ?_,
    fun fs h => ?_, fun h => ?_⟩ <;> simp [getFloatValue, h]

/-- Claim C9 witness: the theorem applied to a concrete record with a
number, a numeric string, the sentinel, a bool, an object, and an
absent key. -/
theorem getFloatValue_total_witness :
    getFloatValue [("a", .num 5)] "a" = 5
    ∧ getFloatValue [("s", .str "123")] "s" = 0
    ∧ getFloatValue [("d", .str "-")] "d" = 0
    ∧ getFloatValue [("b", .bool true)] "b" = 0
    ∧ getFloatValue [("o", .obj [])] "o" = 0
    ∧ getFloatValue [("a", .num 5)] "missing" = 0 :=
  ⟨(getFloatValue_total [("a", .num 5)] "a").1 5 rfl,
   (getFloatValue_total [("s", .str "123")] "s").2.2.1 "123" rfl,
   (getFloatValue_total [("d", .str "-")] "d").2.2.1 "-" rfl,
   (getFloatValue_total [("b", .bool true)] "b").2.2.2.1 true rfl,
   (getFloatValue_total [("o", .obj [])] "o").2.2.2.2.2.1 [] rfl,
   (getFloatValue_total [("a", .num 5)] "missing").2.1 rfl⟩

/-- Claim C10: the empty-`structId` asymmetry — the collection loop
passes the empty string itself to the resolver (only the literal `"0"`
is replaced by the primary device id), while the same site's
`DiscoveryRecord` substitutes the primary id for both `""` and `"0"`;
accordingly an enabled site with empty `structId` produces the
`getTrafficData` call `(siteId, "")`. -/
theorem structId_asymmetry (dev id name : String) (en : Bool) :
    actualDeviceIDFor dev ⟨id, name, en, ""⟩ = ""
    ∧ List.lookup "\x7b#DEVICE_ID\x7d" (discoveryRecord dev ⟨id, name, en, ""⟩) = some dev
    ∧ actualDeviceIDFor dev ⟨id, name, en, "0"⟩ = dev
    ∧ List.lookup "\x7b#DEVICE_ID\x7d" (discoveryRecord dev ⟨id, name, en, "0"⟩) = some dev
    ∧ (∀ (env : Env) (file : Option LastRunInfo),
        (siteBlock env file dev ⟨id, name, true, ""⟩).calls = [(id, "")]) := by
  refine ⟨by simp [actualDeviceIDFor], ?_, by simp [actualDeviceIDFor], ?_, ?_⟩
  · simp [discoveryRecord, List.lookup]
  · simp [discoveryRecord, List.lookup]
  · intro env file
    simp [siteBlock, actualDeviceIDFor]

/-- Claim C2 counterexample: for the candidate `""` (one of the three
special candidates) with the primary-identifier fetch failing, the
resolver does call `tryGetData` — its probe trace is nonempty — so
resolution does not short-circuit at strategy 1 "regardless of whether
the primary-identifier fetch itself succeeds". -/
theorem resolver_probes_when_primary_fetch_fails :
    ("" = "" ∨ "" = "0" ∨ "" = "auto")
    ∧ (findWorkingDeviceID primaryFetchFailsEnv "site1" "").2 = [("site1", "")] :=
  ⟨Or.inl rfl, rfl⟩

/-- Claim C2 (amended): for every candidate id in {`""`, `"0"`,
`"auto"`}, whenever the primary-identifier fetch succeeds (returns a
non-empty id) the resolver returns that id immediately and never calls
`tryGetData`; when that fetch fails, resolution instead falls through
to probing. -/
theorem resolver_short_circuit_when_primary_available (env : Env) (appID candidate : String)
    (hc : candidate = "" ∨ candidate = "0" ∨ candidate = "auto")
    (hd : env.deviceID ≠ "") :
    findWorkingDeviceID env appID candidate = (env.deviceID, []) := by
  simp only [findWorkingDeviceID, if_pos (And.intro hc hd)]

/-- Claim C2 witness: the amended theorem at the candidate `"auto"`
with an available primary id. -/
theorem resolver_short_circuit_witness :
    findWorkingDeviceID primaryOkEnv "app7" "auto" = ("dev-1", []) :=
  resolver_short_circuit_when_primary_available primaryOkEnv "app7" "auto"
    (Or.inr (Or.inr rfl)) (by decide)

/-- Claim C5: encoder quoting and escaping — a key is wrapped in double
quotes iff it contains a space or `[`; a string value containing a
space, double quote or newline is wrapped in quotes with backslashes
escaped before quotes (shown on a value holding both a literal
backslash and a quote); int values keep their decimal rendering
untouched; and each line is `host key clock value\n`. -/
theorem encoder_quoting_escaping :
    (∀ key : String,
      (encodeKey key = "\"" ++ key ++ "\"" ↔
        (key.data.contains ' ' || key.data.contains '[') = true))
    ∧ (∀ s : String,
        (s.data.contains ' ' || s.data.contains '"' || s.data.contains '\n') = true →
        encodeValue (.str s) = "\"" ++ escapeQuote (escapeBackslash s) ++ "\"")
    ∧ encodeValue (.str "a\\b \"c") = "\"a\\\\b \\\"c\""
    ∧ (∀ n : Int, encodeValue (.int n) = toString n)
    ∧ (∀ item : ZabbixData, encodeLine item =
        item.host ++ " " ++ encodeKey item.key ++ " " ++ toString item.clock ++ " "
          ++ encodeValue item.value ++ "\n") := by
  refine ⟨?_, ?_, rfl, fun n => rfl, fun item => rfl⟩
  · intro key
    constructor
    · intro h
      by_contra hc
      rw [encodeKey, if_neg (by simpa using hc)] at h
      have hl := congrArg String.length h
      rw [String.length_append, String.length_append] at hl
      have h1 : ("\"" : String).length = 1 := rfl
      omega
    · intro h
      rw [encodeKey, if_pos h]
  · intro s h
    simp only [encodeValue, renderValue, h, if_pos]

/-- Claim C5 witness: the theorem applied to a bracketed key and a
space-containing value. -/
theorem encoder_quoting_witness :
    encodeKey "waf.site.status[portal]" = "\"waf.site.status[portal]\""
    ∧ encodeValue (.str "x y") = "\"x y\"" :=
  ⟨(encoder_quoting_escaping.1 "waf.site.status[portal]").mpr (by decide),
   encoder_quoting_escaping.2.1 "x y" (by decide)⟩

/-- Claim C6: a disabled site's block is the status point followed by
exactly the ten metric keys, every one carrying value 0 and the run's
collection timestamp as clock, with no `getTrafficData` call and no
state read; and a run whose sites are all disabled makes no traffic
call at all. -/
theorem disabled_site_block (env : Env) (file : Option LastRunInfo) (dev : String)
    (site : Site) (hdis : site.enabled = false) :
    ((siteBlock env file dev site).points.length = 11)
    ∧ ((siteBlock env file dev site).points.head? = some
        { host := env.zabbixHost, key := "waf.site.status[" ++ site.name ++ "]",
          value := .int 0, clock := env.now })
    ∧ ((siteBlock env file dev site).points.tail.map (fun p => p.key)
        = zeroKeys.map fun k => "waf.site." ++ k ++ "[" ++ site.name ++ "]")
    ∧ (zeroKeys.length = 10)
    ∧ (∀ p ∈ (siteBlock env file dev site).points.tail,
        p.value = .int 0 ∧ p.clock = env.now ∧ p.host = env.zabbixHost)
    ∧ ((siteBlock env file dev site).calls = [])
    ∧ ((siteBlock env file dev site).reads = 0)
    ∧ (∀ env' : Env, ∀ file' : Option LastRunInfo,
        (∀ s ∈ env'.sites, s.enabled = false) →
        (collectAllData env' file').trafficCalls = []) := by
  refine ⟨?_, ?_, ?_, rfl, ?_, ?_, ?_, ?_⟩
  · simp [siteBlock, hdis, zeroKeys]
  · simp [siteBlock, hdis]
  · simp [siteBlock, hdis]
  · intro p hp
    simp only [siteBlock, hdis, Bool.false_eq_true, if_false, List.tail_cons,
      List.mem_map] at hp
    obtain ⟨k, hk, rfl⟩ := hp
    exact ⟨rfl, rfl, rfl⟩
  · simp [siteBlock, hdis]
  · simp [siteBlock, hdis]
  · intro env' file' hall
    by_cases hlog : env'.loginOk
    · by_cases hemp : env'.sites.isEmpty
      · simp [collectAllData, hlog, hemp]
      · simp only [collectAllData, hlog, Bool.not_true, Bool.false_eq_true, if_false,
          hemp, if_false]
        rw [List.flatMap_eq_nil_iff]
        intro b hb
        rw [List.mem_map] at hb
        obtain ⟨s, hs, rfl⟩ := hb
        simp [siteBlock, hall s hs]
    · simp [collectAllData, hlog]

/-- Claim C6 witness: the theorem at a concrete environment and
disabled site. -/
theorem disabled_site_block_witness :
    ((siteBlock primaryOkEnv none "dev-1" demoDisabledSite).points.length = 11)
    ∧ ((siteBlock primaryOkEnv none "dev-1" demoDisabledSite).calls = []) :=
  ⟨(disabled_site_block primaryOkEnv none "dev-1" demoDisabledSite rfl).1,
   (disabled_site_block primaryOkEnv none "dev-1" demoDisabledSite rfl).2.2.2.2.2.1⟩

theorem getTrafficDataT_reads (env : Env) (file : Option LastRunInfo)
    (appID deviceID : String) : (getTrafficDataT env file appID deviceID).2 = 1 := by
  rw [getTrafficDataT]
  rcases env.fetchTraffic appID (findWorkingDeviceID env appID deviceID).1
      (computeWindow env.dataType ((getLastRunTime file).map toUnix) env.now).1
      (computeWindow env.dataType ((getLastRunTime file).map toUnix) env.now).2 with _ | records
  · rfl
  · simp only []
    split <;> split <;> rfl

/-- Claim C7: per-site failure isolation — whenever the traffic fetch
errors out or yields no valid sample, `getTrafficData` returns exactly
the one synthetic sample with all ten metric fields 0 stamped `now`;
and an enabled site's block always consists of the status point plus
ten metric points per returned sample, so such a site still contributes
ten zero-valued points while the loop carries on. -/
theorem synthetic_zero_fallback :
    (∀ (env : Env) (file : Option LastRunInfo) (appID deviceID : String),
      (match env.fetchTraffic appID (findWorkingDeviceID env appID deviceID).1
          (computeWindow env.dataType ((getLastRunTime file).map toUnix) env.now).1
          (computeWindow env.dataType ((getLastRunTime file).map toUnix) env.now).2 with
        | none => True
        | some records => records.filterMap (parseTrafficRecord env.now) = []) →
      (getTrafficDataT env file appID deviceID).1
        = [{ timestamp := env.now, bytesInRateAvg := 0, bytesInRateMax := 0,
             bytesOutRateAvg := 0, bytesOutRateMax := 0, connCurAvg := 0,
             connCurMax := 0, connRateAvg := 0, httpReqCntAvg := 0,
             httpReqCntMax := 0, httpReqRateAvg := 0 }])
    ∧ (∀ (env : Env) (file : Option LastRunInfo) (dev : String) (site : Site),
        site.enabled = true →
        (siteBlock env file dev site).points.length
          = 1 + 10 * (getTrafficDataT env file site.id (actualDeviceIDFor dev site)).1.length) := by
  constructor
  · intro env file appID deviceID h
    rcases hfetch : env.fetchTraffic appID (findWorkingDeviceID env appID deviceID).1
        (computeWindow env.dataType ((getLastRunTime file).map toUnix) env.now).1
        (computeWindow env.dataType ((getLastRunTime file).map toUnix) env.now).2
      with _ | records
    · simp [getTrafficDataT, hfetch]
    · rw [hfetch] at h
      simp [getTrafficDataT, hfetch, h]
  · intro env file dev site hen
    have hlen : ∀ l : List TrafficData,
        (l.flatMap (metricPoints env.zabbixHost site.name)).length = 10 * l.length := by
      intro l
      induction l with
      | nil => rfl
      | cons a t ih =>
        simp only [List.flatMap_cons, List.length_append, ih, List.length_cons]
        simp [metricPoints]
        ring
    simp [siteBlock, hen, hlen]
    omega

/-- Claim C7 witness: the theorem at an environment whose fetch errors
(the hypothesis holds trivially) and at a concrete enabled site. -/
theorem synthetic_zero_fallback_witness :
    (getTrafficDataT fetchFailsEnv none "a" "d").1
      = [{ timestamp := 5, bytesInRateAvg := 0, bytesInRateMax := 0,
           bytesOutRateAvg := 0, bytesOutRateMax := 0, connCurAvg := 0,
           connCurMax := 0, connRateAvg := 0, httpReqCntAvg := 0,
           httpReqCntMax := 0, httpReqRateAvg := 0 }]
    ∧ (siteBlock fetchFailsEnv none "dd" demoEnabledSite).points.length = 1 + 10 * 1 :=
  ⟨synthetic_zero_fallback.1 fetchFailsEnv none "a" "d" trivial,
   by
    have h := synthetic_zero_fallback.2 fetchFailsEnv none "dd" demoEnabledSite rfl
    rw [h]
    rfl⟩

/-- Claim C8 counterexample: with two enabled sites a single run reads
the state file twice (`getLastRunTime` runs inside `getTrafficData`,
once per enabled site), not "exactly once at the start of the run". -/
theorem state_read_twice_with_two_sites :
    (run twoEnabledEnv none).stateReads = 2 ∧ twoEnabledEnv.sites.length = 2 := by
  constructor <;> rfl

theorem sum_reads_eq_count (f : Site → SiteBlock)
    (hf : ∀ s : Site, (f s).reads = if s.enabled then 1 else 0) :
    ∀ l : List Site, ((l.map f).map SiteBlock.reads).sum
      = (l.filter fun s => s.enabled).length := by
  intro l
  induction l with
  | nil => rfl
  | cons a t ih =>
    simp only [List.map_cons, List.sum_cons, hf a, List.filter_cons, List.map_map] at *
    by_cases he : a.enabled
    · simp [he, ih]
      omega
    · simp [he, ih]

/-- Claim C8 (amended): during one run the state file is read once per
enabled site — `if loginOk then (if no sites then 0 else #enabled) else
0` reads in total, zero when the run aborts before the loop — and it is
written exactly once when the run succeeds and never otherwise (hence
at most once, at the end). -/
theorem state_file_access (env : Env) (file : Option LastRunInfo) :
    ((run env file).stateReads =
      if env.loginOk then
        if env.sites.isEmpty then 0 else (env.sites.filter fun s => s.enabled).length
      else 0)
    ∧ ((run env file).stateWrites = if (run env file).success then 1 else 0)
    ∧ (run env file).stateWrites ≤ 1 := by
  have hone : ∀ s : Site,
      (siteBlock env file (if env.deviceID = "" then "default" else env.deviceID) s).reads
        = if s.enabled then 1 else 0 := by
    intro s
    by_cases he : s.enabled
    · simp [siteBlock, he, getTrafficDataT_reads]
    · simp [siteBlock, he]
  have hcc : (collectAllData env file).stateReads =
      if env.loginOk then
        if env.sites.isEmpty then 0 else (env.sites.filter fun s => s.enabled).length
      else 0 := by
    by_cases hlog : env.loginOk
    · by_cases hemp : env.sites.isEmpty
      · simp [collectAllData, hlog, hemp]
      · simp only [collectAllData, hlog, Bool.not_true, Bool.false_eq_true, if_false, hemp,
          if_true]
        rw [sum_reads_eq_count _ hone env.sites]
    · simp [collectAllData, hlog]
  by_cases h1 : 0 < (collectAllData env file).data.length
  · by_cases h2 : env.sendOk (collectAllData env file).data
    · refine ⟨?_, ?_, ?_⟩ <;> simp [run, h1, h2, hcc]
    · refine ⟨?_, ?_, ?_⟩ <;> simp [run, h1, h2, hcc]
  · refine ⟨?_, ?_, ?_⟩ <;> simp [run, h1, hcc]

/-- Claim C4: state-timestamp round-trip and legacy compatibility —
what `saveLastRunTime` writes always parses via the first of the four
layouts (and hence via the strict-order chain of `getLastRunTime`,
recovering the saved time to whole seconds); and a timestamp written in
each of the three legacy layouts parses correctly, both by that layout
in isolation and through the strict-order chain. -/
theorem state_timestamp_roundtrip :
    (∀ t : DateTime, ValidDT t →
      parseRFC3339S (String.mk (formatRFC3339 t)) = some { t with nanos := 0 }
      ∧ parseLastRunTime (String.mk (formatRFC3339 t)) = some { t with nanos := 0 })
    ∧ (∀ (t : DateTime) (dataType zabbixHost : String), ValidDT t →
        getLastRunTime (some (saveLastRunTime t dataType zabbixHost))
          = some { t with nanos := 0 })
    ∧ (∀ t : DateTime, ValidDT t → t.offMin = 0 → 1000 ∣ t.nanos →
        parseFracLocalS (String.mk (writeFracLocal t)) = some t
        ∧ parseLastRunTime (String.mk (writeFracLocal t)) = some t)
    ∧ (∀ t : DateTime, ValidDT t → t.offMin = 0 →
        parseLocalS (String.mk (writeLocal t)) = some { t with nanos := 0 }
        ∧ parseLastRunTime (String.mk (writeLocal t)) = some { t with nanos := 0 })
    ∧ (∀ t : DateTime, ValidDT t → t.offMin = 0 →
        parseSpaceS (String.mk (writeSpace t)) = some { t with nanos := 0 }
        ∧ parseLastRunTime (String.mk (writeSpace t)) = some { t with nanos := 0 }) := by
  refine ⟨?_, ?_, ?_, ?_, ?_⟩
  · intro t h
    exact ⟨by simpa [parseRFC3339S] using parseRFC3339_format t h,
      parseLastRunTime_format t h⟩
  · intro t dataType zabbixHost h
    exact getLastRunTime_save t h dataType zabbixHost
  · intro t h hoff hdvd
    exact ⟨by simpa [parseFracLocalS] using parseFracLocal_write t h hoff hdvd,
      parseLastRunTime_writeFracLocal t h hoff hdvd⟩
  · intro t h hoff
    exact ⟨by simpa [parseLocalS] using parseLocal_write t h hoff,
      parseLastRunTime_writeLocal t h hoff⟩
  · intro t h hoff
    exact ⟨by simpa [parseSpaceS] using parseSpace_write t h hoff,
      parseLastRunTime_writeSpace t h hoff⟩

/-- Claim C4 witness: the theorem at concrete timestamps — an
offset-bearing run time through save/load, and each legacy layout. -/
theorem state_timestamp_roundtrip_witness :
    getLastRunTime (some (saveLastRunTime ⟨2024, 3, 15, 12, 30, 45, 987654321, 330⟩
        "mins" "waf-host")) = some ⟨2024, 3, 15, 12, 30, 45, 0, 330⟩
    ∧ parseLastRunTime (String.mk (writeFracLocal ⟨2023, 11, 5, 7, 8, 9, 123000000, 0⟩))
        = some ⟨2023, 11, 5, 7, 8, 9, 123000000, 0⟩
    ∧ parseLastRunTime (String.mk (writeLocal ⟨2023, 11, 5, 7, 8, 9, 0, 0⟩))
        = some ⟨2023, 11, 5, 7, 8, 9, 0, 0⟩
    ∧ parseLastRunTime (String.mk (writeSpace ⟨2023, 11, 5, 7, 8, 9, 0, 0⟩))
        = some ⟨2023, 11, 5, 7, 8, 9, 0, 0⟩ := by
  refine ⟨?_, ?_, ?_, ?_⟩
  · exact state_timestamp_roundtrip.2.1 ⟨2024, 3, 15, 12, 30, 45, 987654321, 330⟩
      "mins" "waf-host" (by decide)
  · exact (state_timestamp_roundtrip.2.2.1 ⟨2023, 11, 5, 7, 8, 9, 123000000, 0⟩
      (by decide) rfl ⟨123000, rfl⟩).2
  · exact (state_timestamp_roundtrip.2.2.2.1 ⟨2023, 11, 5, 7, 8, 9, 0, 0⟩
      (by decide) rfl).2
  · exact (state_timestamp_roundtrip.2.2.2.2 ⟨2023, 11, 5, 7, 8, 9, 0, 0⟩
      (by decide) rfl).2
